import Mathlib

/-!
Shallow embedding of `send_self.py` (the `send_self` decorator and the
generator-wrapper classes `GeneratorWrapperBase`, `WeakGeneratorWrapper`,
`StrongGeneratorWrapper`).

Modelling choices, all taken from the source:

* A Python generator object is a heap cell holding a `GenRunState`:
  `created` (not yet started), `suspended` (parked at a `yield`, with
  continuations describing what the body does when a value is sent in or
  an exception is thrown in), or `terminated`.  The body's behaviour is a
  `Behavior` tree: terminate normally (`ret`), raise (`raiseE`), or yield
  a value together with the two continuations (`yieldV`).
* The heap `PyState` is a list of generator cells plus, per cell, a flag
  saying whether the object has been garbage-collected; a `weakref` to
  cell `i` resolves to `some i` while the flag is unset and to `none`
  afterwards, exactly like `weakref.ref(...)()` in Python.
* Wrapper objects carry an object identity `oid` (a fresh number is
  consumed whenever a constructor runs), the reference they hold
  (`strongRef` stores the generator object, possibly `None`; `weakRef`
  stores the weak cell index), and the `catch_stopiteration` / `debug`
  flags.  Python object identity is needed to distinguish a method that
  returns `self` from one that builds a new object.
* Exceptions surface as `Except Exc` results.  Attribute access on `None`
  (e.g. `None.send` after a dead weak reference was dereferenced) is the
  `attributeError` value, as in CPython.
-/

namespace SendSelf

/-- Python exception values relevant to the embedded code. -/
inductive Exc where
  | stopIteration
  | attributeError (attr : String)
  | typeError (msg : String)
  | exc (kind : String) (payload : String)
deriving DecidableEq, Repr

/-- The reference a wrapper holds: `StrongGeneratorWrapper` stores the
generator object itself in `self.generator` (which can be `None` when the
wrapper was built from a dead weak reference), `WeakGeneratorWrapper`
stores `self.weak_generator = weakref.ref(generator)`. -/
inductive GenRef where
  | strongRef (generator : Option Nat)
  | weakRef (target : Nat)
deriving DecidableEq, Repr

/-- A wrapper object (`WeakGeneratorWrapper` / `StrongGeneratorWrapper`).
`oid` is the Python object identity of this instance. -/
structure Wrapper where
  oid : Nat
  ref : GenRef
  catch_stopiteration : Bool
  debug : Bool
deriving DecidableEq, Repr

/-- Values flowing across suspension points: `None`, numbers, strings and
wrapper objects (the launcher sends a `WeakGeneratorWrapper` into the
generator). -/
inductive Val where
  | none
  | nat (n : Nat)
  | str (s : String)
  | wrap (w : Wrapper)
deriving DecidableEq, Repr

/-- The behaviour of a generator body from its current point on:
run to completion (`ret`), raise an exception (`raiseE`), or yield `v`
and then continue with `onSend` when resumed with a value or `onThrow`
when an exception is thrown in at the suspension point. -/
inductive Behavior where
  | ret : Behavior
  | raiseE (e : Exc) : Behavior
  | yieldV (v : Val) (onSend : Val → Behavior) (onThrow : Exc → Behavior) : Behavior

/-- The run state of a generator object. -/
inductive GenRunState where
  | created (body : Behavior)
  | suspended (onSend : Val → Behavior) (onThrow : Exc → Behavior)
  | terminated

/-- The Python heap restricted to generator objects: `gens` holds each
generator cell, `dead i = true` means object `i` has been collected, so
weak references to it now resolve to `None`. -/
structure PyState where
  gens : List GenRunState
  dead : List Bool

/-- Index lookup in a cell list. -/
def lookupGen : List GenRunState → Nat → Option GenRunState
  | [], _ => Option.none
  | x :: _, 0 => some x
  | _ :: xs, n + 1 => lookupGen xs n

/-- Index update in a cell list. -/
def setGenAt : List GenRunState → Nat → GenRunState → List GenRunState
  | [], _, _ => []
  | _ :: xs, 0, b => b :: xs
  | x :: xs, n + 1, b => x :: setGenAt xs n b

/-- Dereference a weak reference (`self.weak_generator()`): `some i`
while the object lives, `none` once it was collected. -/
def weakDeref (s : PyState) (i : Nat) : Option Nat :=
  if s.dead.getD i true then Option.none else some i

/-- Run a behaviour until the next suspension point, completion or raise;
this is what happens inside the generator between two yields. Normal
completion raises StopIteration at the resumption site. -/
def runBehavior : Behavior → GenRunState × Except Exc Val
  | .ret => (.terminated, .error .stopIteration)
  | .raiseE e => (.terminated, .error e)
  | .yieldV v k t => (.suspended k t, .ok v)

/-- `generator.send(v)` on the generator object `g` (also `next(generator)`,
which is `send(None)` on a not-yet-started generator).  Sending a
non-`None` value to a just-started generator is a TypeError; sending to an
exhausted generator raises StopIteration. -/
def genSend (s : PyState) (g : Nat) (v : Val) : PyState × Except Exc Val :=
  match lookupGen s.gens g with
  | Option.none => (s, .error (.exc "InvalidGenerator" ""))
  | some (.created b) =>
    match v with
    | .none =>
      let r := runBehavior b
      (⟨setGenAt s.gens g r.1, s.dead⟩, r.2)
    | _ => (s, .error (.typeError "cannot send non-None value to a just-started generator"))
  | some (.suspended k _) =>
    let r := runBehavior (k v)
    (⟨setGenAt s.gens g r.1, s.dead⟩, r.2)
  | some .terminated => (s, .error .stopIteration)

/-- `generator.throw(e)` on the generator object `g`: the exception is
raised at the current suspension point and the body's own handling
(`onThrow`) decides what happens; throwing into a not-yet-started
generator raises `e` at its start and closes it; throwing into an
exhausted generator re-raises `e`. -/
def genThrow (s : PyState) (g : Nat) (e : Exc) : PyState × Except Exc Val :=
  match lookupGen s.gens g with
  | Option.none => (s, .error (.exc "InvalidGenerator" ""))
  | some (.created _) => (⟨setGenAt s.gens g .terminated, s.dead⟩, .error e)
  | some (.suspended _ t) =>
    let r := runBehavior (t e)
    (⟨setGenAt s.gens g r.1, s.dead⟩, r.2)
  | some .terminated => (s, .error e)

/-- `generator.close()` on the generator object `g`: terminates the
generator; idempotent on an exhausted generator. -/
def genClose (s : PyState) (g : Nat) : PyState × Except Exc Unit :=
  match lookupGen s.gens g with
  | Option.none => (s, .error (.exc "InvalidGenerator" ""))
  | some .terminated => (s, .ok ())
  | some _ => (⟨setGenAt s.gens g .terminated, s.dead⟩, .ok ())

namespace Wrapper

/-- The `generator` attribute: `StrongGeneratorWrapper` stores the object
directly; `WeakGeneratorWrapper.generator` is the property
`self.weak_generator()`, i.e. a weak dereference in the current state. -/
def generator (w : Wrapper) (s : PyState) : Option Nat :=
  match w.ref with
  | .strongRef g => g
  | .weakRef i => weakDeref s i

end Wrapper

/-- The value of `partial(self._send, self.generator)` (and likewise for
`_throw`): a callable capturing `self` (hence the flags) and, positionally,
the generator object resolved at the moment the `send` / `throw` property
was accessed.  Holding the object in the `generator` field is the
embedding of the strong reference the `partial` keeps. -/
structure BoundMethod where
  catch_stopiteration : Bool
  debug : Bool
  generator : Option Nat
deriving DecidableEq, Repr

namespace GeneratorWrapperBase

/-- `GeneratorWrapperBase._send(self, generator, value=None)`.  When
`catch_stopiteration` is set, `return generator.send(value)` with
StopIteration converted to `None`.  Otherwise the source reads
`generator.send(value)` with no `return` statement, so the sent result is
discarded and the method returns `None`; exceptions still propagate.
When `generator` is `None` (dead weak reference), `generator.send` is an
attribute access on `None` and raises AttributeError. -/
def _send (catch_stopiteration : Bool) (generator : Option Nat) (value : Val)
    (s : PyState) : PyState × Except Exc Val :=
  match generator with
  | Option.none => (s, .error (.attributeError "send"))
  | some g =>
    let r := genSend s g value
    if catch_stopiteration then
      match r.2 with
      | .error .stopIteration => (r.1, .ok .none)
      | _ => r
    else
      match r.2 with
      | .ok _ => (r.1, .ok .none)
      | .error e => (r.1, .error e)

/-- `GeneratorWrapperBase._throw(self, generator, *args)`: same structure
as `_send`, delegating to `generator.throw`; again the no-catch branch has
no `return` statement. -/
def _throw (catch_stopiteration : Bool) (generator : Option Nat) (e : Exc)
    (s : PyState) : PyState × Except Exc Val :=
  match generator with
  | Option.none => (s, .error (.attributeError "throw"))
  | some g =>
    let r := genThrow s g e
    if catch_stopiteration then
      match r.2 with
      | .error .stopIteration => (r.1, .ok .none)
      | _ => r
    else
      match r.2 with
      | .ok _ => (r.1, .ok .none)
      | .error e2 => (r.1, .error e2)

/-- The `send` property: `partial(self._send, self.generator)` — the weak
reference (if any) is resolved once, now, and the resulting object is
captured in the returned callable. -/
def send (w : Wrapper) (s : PyState) : BoundMethod :=
  ⟨w.catch_stopiteration, w.debug, w.generator s⟩

/-- The `throw` property: `partial(self._throw, self.generator)`. -/
def throw (w : Wrapper) (s : PyState) : BoundMethod :=
  ⟨w.catch_stopiteration, w.debug, w.generator s⟩

/-- The `close` property: `return self.generator.close` — an attribute
access on the resolved generator, yielding the bound `close` method (here:
the object it is bound to), or raising AttributeError when the weak
reference resolved to `None`. -/
def close (w : Wrapper) (s : PyState) : Except Exc Nat :=
  match w.generator s with
  | Option.none => .error (.attributeError "close")
  | some g => .ok g

end GeneratorWrapperBase

/-- Invoking a callable obtained from the `send` property. -/
def BoundMethod.callSend (c : BoundMethod) (value : Val) (s : PyState) :
    PyState × Except Exc Val :=
  GeneratorWrapperBase._send c.catch_stopiteration c.generator value s

/-- Invoking a callable obtained from the `throw` property. -/
def BoundMethod.callThrow (c : BoundMethod) (e : Exc) (s : PyState) :
    PyState × Except Exc Val :=
  GeneratorWrapperBase._throw c.catch_stopiteration c.generator e s

namespace WeakGeneratorWrapper

/-- `WeakGeneratorWrapper.with_strong_ref`: builds a new
`StrongGeneratorWrapper(self.generator, self.catch_stopiteration,
self.debug)`; `alloc` is the fresh object identity the constructor call
consumes. -/
def with_strong_ref (w : Wrapper) (s : PyState) (alloc : Nat) : Wrapper × Nat :=
  (⟨alloc, .strongRef (w.generator s), w.catch_stopiteration, w.debug⟩, alloc + 1)

/-- `WeakGeneratorWrapper.with_weak_ref`: `return self`. -/
def with_weak_ref (w : Wrapper) : Wrapper := w

/-- `__call__ = with_strong_ref` on the weak wrapper. -/
def call (w : Wrapper) (s : PyState) (alloc : Nat) : Wrapper × Nat :=
  with_strong_ref w s alloc

end WeakGeneratorWrapper

namespace StrongGeneratorWrapper

/-- `StrongGeneratorWrapper.with_strong_ref`: `return self`. -/
def with_strong_ref (w : Wrapper) : Wrapper := w

/-- `StrongGeneratorWrapper.with_weak_ref`: builds a new
`WeakGeneratorWrapper(self.generator, ...)`, whose constructor runs
`weakref.ref(generator)`; on `None` that raises TypeError in CPython. -/
def with_weak_ref (w : Wrapper) (s : PyState) (alloc : Nat) :
    Except Exc (Wrapper × Nat) :=
  match w.generator s with
  | Option.none => .error (.typeError "cannot create weak reference to None")
  | some g => .ok (⟨alloc, .weakRef g, w.catch_stopiteration, w.debug⟩, alloc + 1)

/-- `__call__ = with_strong_ref` on the strong wrapper. -/
def call (w : Wrapper) : Wrapper := with_strong_ref w

end StrongGeneratorWrapper

/-- `send_self_wrapper(*args)` from the decorator body, for a decorated
function whose generator body behaves as `func`:
creates the generator (a fresh heap cell), evaluates the discarded
expression statement `weakref.ref(generator, finalize_callback)` (the
weakref object is stored nowhere), runs `ret_value = next(generator)`,
builds the `WeakGeneratorWrapper`, runs `generator.send(gen_wrapper)`
directly on the generator object, and returns `ret_value`.  The two
advances use the raw generator protocol, not `_send`, so any exception
they raise — including StopIteration — propagates to the caller. -/
def send_self_wrapper (func : Behavior) (catch_stopiteration debug : Bool)
    (s : PyState) (alloc : Nat) : PyState × Nat × Except Exc Val :=
  let g := s.gens.length
  let s1 : PyState := ⟨s.gens ++ [.created func], s.dead ++ [false]⟩
  let r1 := genSend s1 g .none
  match r1.2 with
  | .error e => (r1.1, alloc, .error e)
  | .ok ret_value =>
    let gen_wrapper : Wrapper := ⟨alloc, .weakRef g, catch_stopiteration, debug⟩
    let r2 := genSend r1.1 g (.wrap gen_wrapper)
    match r2.2 with
    | .error e => (r2.1, alloc + 1, .error e)
    | .ok _ => (r2.1, alloc + 1, .ok ret_value)

/-! Helper lemmas about the heap primitives. -/

theorem lookupGen_concat (l : List GenRunState) (a : GenRunState) :
    lookupGen (l ++ [a]) l.length = some a := by
  induction l with
  | nil => rfl
  | cons x xs ih => simpa [lookupGen] using ih

theorem setGenAt_concat (l : List GenRunState) (a b : GenRunState) :
    setGenAt (l ++ [a]) l.length b = l ++ [b] := by
  induction l with
  | nil => rfl
  | cons x xs ih => simp [setGenAt, ih]

/-! Sample generator behaviours used by witnesses:
a body that yields `1`, then yields `2`, then terminates. -/

/-- Continuation after the second yield of the sample body: terminate. -/
def sampleK2 : Val → Behavior := fun _ => .ret

/-- Throw-continuation at the second yield of the sample body. -/
def sampleT2 : Exc → Behavior := fun e => .raiseE e

/-- Continuation after the first yield of the sample body: yield `2`. -/
def sampleK : Val → Behavior := fun _ => .yieldV (.nat 2) sampleK2 sampleT2

/-- Throw-continuation at the first yield of the sample body. -/
def sampleT : Exc → Behavior := fun e => .raiseE e

/-- Claim C1: calling the callable produced by `send_self` creates exactly
one new generator, advances it to its first suspension point with no
external value, sends in a fresh `Weak` wrapper carrying the configured
`catch_stopiteration`/`debug` flags, and returns the value of the first
yield — not the value of the second.  Stated for a body that yields `v`,
and (hypothesis `h2`) reacts to receiving the wrapper by yielding `v2`:
the heap gains exactly one cell, left suspended at the continuation after
the wrapper delivery, and the call returns `v`. -/
theorem launcher_first_yield_returned
    (v v2 : Val) (k : Val → Behavior) (t : Exc → Behavior)
    (k2 : Val → Behavior) (t2 : Exc → Behavior)
    (c d : Bool) (s : PyState) (alloc : Nat)
    (h2 : k (.wrap ⟨alloc, .weakRef s.gens.length, c, d⟩) = .yieldV v2 k2 t2) :
    send_self_wrapper (.yieldV v k t) c d s alloc
      = (⟨s.gens ++ [.suspended k2 t2], s.dead ++ [false]⟩, alloc + 1, .ok v) := by
  unfold send_self_wrapper
  simp only [genSend, lookupGen_concat, runBehavior, setGenAt_concat, h2]

/-- Witness for C1 at the sample body, initial empty heap. -/
theorem launcher_first_yield_returned_witness :
    sampleK (.wrap ⟨0, .weakRef 0, true, false⟩) = .yieldV (.nat 2) sampleK2 sampleT2 ∧
    send_self_wrapper (.yieldV (.nat 1) sampleK sampleT) true false ⟨[], []⟩ 0
      = (⟨[.suspended sampleK2 sampleT2], [false]⟩, 1, .ok (.nat 1)) :=
  ⟨rfl, launcher_first_yield_returned (.nat 1) (.nat 2) sampleK sampleT
    sampleK2 sampleT2 true false ⟨[], []⟩ 0 rfl⟩

/-- Generator cell suspended at a yield whose body, when resumed, yields
`42` next. -/
def yields42 : GenRunState :=
  .suspended (fun _ => .yieldV (.nat 42) sampleK2 sampleT2) sampleT

/-- Claim C2 (refuting evaluation): with `catch_stopiteration = false`, a
resume of a live suspended coroutine whose next yield is `42` returns
`None`, not `42` — the `else` branch of `_send` lacks a `return`
statement, so the value of `generator.send(value)` is discarded. -/
theorem resume_no_catch_discards_value :
    (GeneratorWrapperBase._send false (some 0) .none ⟨[yields42], [false]⟩).2
      = .ok .none := rfl

/-- Claim C3: resuming an already-terminated coroutine returns `None` and
does not raise when `catch_stopiteration` is set, and raises StopIteration
to the caller when it is not. -/
theorem resume_terminated (g : Nat) (v : Val) (s : PyState)
    (h : lookupGen s.gens g = some .terminated) :
    (GeneratorWrapperBase._send true (some g) v s).2 = .ok .none ∧
    (GeneratorWrapperBase._send false (some g) v s).2 = .error .stopIteration := by
  constructor <;> simp [GeneratorWrapperBase._send, genSend, h]

/-- Witness for C3 on a one-cell heap whose generator is terminated. -/
theorem resume_terminated_witness :
    lookupGen (PyState.mk [.terminated] [false]).gens 0 = some .terminated ∧
    ((GeneratorWrapperBase._send true (some 0) (.nat 5) ⟨[.terminated], [false]⟩).2 = .ok .none ∧
     (GeneratorWrapperBase._send false (some 0) (.nat 5) ⟨[.terminated], [false]⟩).2
       = .error .stopIteration) :=
  ⟨rfl, resume_terminated 0 (.nat 5) ⟨[.terminated], [false]⟩ rfl⟩

/-- Body with exactly one yield: it terminates as soon as the launcher
delivers the wrapper. -/
def oneYield : Behavior := .yieldV (.nat 7) (fun _ => .ret) sampleT

/-- Claim C6 (refuting evaluation): a decorated body with exactly one
yield terminates while the launcher delivers the wrapper (step 4); the
launcher calls `generator.send(gen_wrapper)` on the raw generator object,
so the resulting StopIteration propagates to the launcher's caller even
though `catch_stopiteration = true` — it is not handled per the Handle's
resume contract. -/
theorem launcher_propagates_termination :
    (send_self_wrapper oneYield true false ⟨[], []⟩ 0).2.2
      = .error .stopIteration := rfl

/-- Claim C5 (refuting evaluation): invoking `resume` through a `Weak`
wrapper whose coroutine was collected raises AttributeError — the `send`
property builds `partial(self._send, None)` and the call then evaluates
`None.send` — rather than being a defined no-op or a "no referent" result
surfaced as data. -/
theorem dangling_resume_raises :
    (BoundMethod.callSend
        (GeneratorWrapperBase.send ⟨0, .weakRef 0, true, false⟩ ⟨[.terminated], [true]⟩)
        .none ⟨[.terminated], [true]⟩).2
      = .error (.attributeError "send") := rfl

/-- Claim C5 (amended): on a `Weak` wrapper whose coroutine is gone, the
`generator` attribute does resolve to `None` as data, and
`with_strong_ref` returns a wrapper whose resolution is permanently empty
in every state; but `resume`, `throw_into` and `close` raise
AttributeError when used, instead of being defined no-ops. -/
theorem dangling_weak_handle_ops (w : Wrapper) (i : Nat) (s : PyState)
    (alloc : Nat) (v : Val) (e : Exc)
    (hw : w.ref = .weakRef i) (hd : weakDeref s i = Option.none) :
    w.generator s = Option.none ∧
    (BoundMethod.callSend (GeneratorWrapperBase.send w s) v s).2
      = .error (.attributeError "send") ∧
    (BoundMethod.callThrow (GeneratorWrapperBase.throw w s) e s).2
      = .error (.attributeError "throw") ∧
    GeneratorWrapperBase.close w s = .error (.attributeError "close") ∧
    (WeakGeneratorWrapper.with_strong_ref w s alloc).1.ref = .strongRef Option.none ∧
    ∀ s2 : PyState,
      Wrapper.generator (WeakGeneratorWrapper.with_strong_ref w s alloc).1 s2
        = Option.none := by
  refine ⟨?_, ?_, ?_, ?_, ?_, ?_⟩ <;>
    simp [GeneratorWrapperBase.send, GeneratorWrapperBase.throw,
      GeneratorWrapperBase.close, BoundMethod.callSend, BoundMethod.callThrow,
      GeneratorWrapperBase._send, GeneratorWrapperBase._throw,
      WeakGeneratorWrapper.with_strong_ref, Wrapper.generator, hw, hd]

/-- Witness for the amended C5 on a heap whose single generator object was
collected. -/
theorem dangling_weak_handle_ops_witness :
    ((⟨3, .weakRef 0, true, false⟩ : Wrapper).ref = .weakRef 0 ∧
      weakDeref ⟨[.terminated], [true]⟩ 0 = Option.none) ∧
    (Wrapper.generator ⟨3, .weakRef 0, true, false⟩ ⟨[.terminated], [true]⟩ = Option.none ∧
     (BoundMethod.callSend
        (GeneratorWrapperBase.send ⟨3, .weakRef 0, true, false⟩ ⟨[.terminated], [true]⟩)
        (.nat 5) ⟨[.terminated], [true]⟩).2 = .error (.attributeError "send") ∧
     (BoundMethod.callThrow
        (GeneratorWrapperBase.throw ⟨3, .weakRef 0, true, false⟩ ⟨[.terminated], [true]⟩)
        .stopIteration ⟨[.terminated], [true]⟩).2 = .error (.attributeError "throw") ∧
     GeneratorWrapperBase.close ⟨3, .weakRef 0, true, false⟩ ⟨[.terminated], [true]⟩
       = .error (.attributeError "close") ∧
     (WeakGeneratorWrapper.with_strong_ref ⟨3, .weakRef 0, true, false⟩
        ⟨[.terminated], [true]⟩ 7).1.ref = .strongRef Option.none ∧
     ∀ s2 : PyState,
       Wrapper.generator
         (WeakGeneratorWrapper.with_strong_ref ⟨3, .weakRef 0, true, false⟩
           ⟨[.terminated], [true]⟩ 7).1 s2 = Option.none) :=
  ⟨⟨rfl, rfl⟩,
    dangling_weak_handle_ops ⟨3, .weakRef 0, true, false⟩ 0 ⟨[.terminated], [true]⟩
      7 (.nat 5) .stopIteration rfl rfl⟩

/-- Generator cell suspended at a yield whose body catches TypeError and
then yields the error message as a follow-up value. -/
def catchesTypeError : GenRunState :=
  .suspended (fun _ => .ret)
    (fun e => match e with
      | .typeError m => .yieldV (.str m) sampleK2 sampleT2
      | _ => .raiseE e)

/-- Claim C7 (refuting evaluation): with `catch_stopiteration = false`, a
`throw_into` whose injected TypeError is caught by the coroutine body —
which then yields the message back — returns `None` instead of that
follow-up value, because the `else` branch of `_throw` lacks a `return`
statement. -/
theorem throw_no_catch_discards_value :
    (GeneratorWrapperBase._throw false (some 0) (.typeError "3 is greater than 2")
        ⟨[catchesTypeError], [false]⟩).2 = .ok .none := rfl

/-- Claim C8: converting a `Strong` wrapper of a live coroutine to `Weak`
and back yields a wrapper holding the very same generator object, with the
same `catch_stopiteration` and `debug` flags, and whose `send` property
yields a callable equal to the original wrapper's — so its resume has
identical externally observable effects. -/
theorem strong_weak_strong_roundtrip (cs db : Bool) (oid g : Nat) (s : PyState)
    (a1 a3 : Nat) (hlive : s.dead.getD g true = false) :
    StrongGeneratorWrapper.with_weak_ref ⟨oid, .strongRef (some g), cs, db⟩ s a1
        = .ok (⟨a1, .weakRef g, cs, db⟩, a1 + 1) ∧
    (WeakGeneratorWrapper.with_strong_ref ⟨a1, .weakRef g, cs, db⟩ s a3).1
        = ⟨a3, .strongRef (some g), cs, db⟩ ∧
    GeneratorWrapperBase.send ⟨a3, .strongRef (some g), cs, db⟩ s
        = GeneratorWrapperBase.send ⟨oid, .strongRef (some g), cs, db⟩ s := by
  have hlive2 : (s.dead[g]?).getD true = false := by simpa [List.getD] using hlive
  refine ⟨?_, ?_, ?_⟩ <;>
    simp [StrongGeneratorWrapper.with_weak_ref, WeakGeneratorWrapper.with_strong_ref,
      GeneratorWrapperBase.send, Wrapper.generator, weakDeref, hlive2]

/-- Witness for C8 on a one-cell heap with a live suspended generator. -/
theorem strong_weak_strong_roundtrip_witness :
    (PyState.mk [yields42] [false]).dead.getD 0 true = false ∧
    (StrongGeneratorWrapper.with_weak_ref ⟨0, .strongRef (some 0), true, false⟩
        ⟨[yields42], [false]⟩ 1 = .ok (⟨1, .weakRef 0, true, false⟩, 2) ∧
     (WeakGeneratorWrapper.with_strong_ref ⟨1, .weakRef 0, true, false⟩
        ⟨[yields42], [false]⟩ 2).1 = ⟨2, .strongRef (some 0), true, false⟩ ∧
     GeneratorWrapperBase.send ⟨2, .strongRef (some 0), true, false⟩ ⟨[yields42], [false]⟩
       = GeneratorWrapperBase.send ⟨0, .strongRef (some 0), true, false⟩
           ⟨[yields42], [false]⟩) :=
  ⟨rfl, strong_weak_strong_roundtrip true false 0 0 ⟨[yields42], [false]⟩ 1 2 rfl⟩

/-- A weak wrapper instance with object identity 5, used by claim C9. -/
def w9 : Wrapper := ⟨5, .weakRef 0, true, false⟩

/-- A strong wrapper instance with object identity 6, used by claim C9. -/
def w9s : Wrapper := ⟨6, .strongRef (some 0), true, false⟩

/-- Claim C9 (refuting evaluation): the same-mode conversions return the
receiver itself — `WeakGeneratorWrapper.with_weak_ref` and
`StrongGeneratorWrapper.with_strong_ref` are `return self` — so the
result carries the receiver's own object identity rather than being a new
Handle value. -/
theorem same_mode_conversion_returns_self :
    WeakGeneratorWrapper.with_weak_ref w9 = w9 ∧
    StrongGeneratorWrapper.with_strong_ref w9s = w9s ∧
    (WeakGeneratorWrapper.with_weak_ref w9).oid = w9.oid :=
  ⟨rfl, rfl, rfl⟩

/-- Claim C9 (amended): no conversion mutates the receiver; the
cross-mode conversions (`Weak → Strong` and `Strong → Weak`) construct a
new wrapper with a fresh object identity, while the same-mode conversions
return the receiving wrapper itself; the zero-argument call is sugar for
`with_strong_ref` on both classes. -/
theorem mode_conversion_allocation (w : Wrapper) (s : PyState) (alloc g : Nat)
    (hfresh : w.oid < alloc) (hgen : w.generator s = some g) :
    (WeakGeneratorWrapper.with_strong_ref w s alloc).1.oid = alloc ∧
    (WeakGeneratorWrapper.with_strong_ref w s alloc).1.oid ≠ w.oid ∧
    (WeakGeneratorWrapper.with_strong_ref w s alloc).2 = alloc + 1 ∧
    StrongGeneratorWrapper.with_weak_ref w s alloc
      = .ok (⟨alloc, .weakRef g, w.catch_stopiteration, w.debug⟩, alloc + 1) ∧
    WeakGeneratorWrapper.with_weak_ref w = w ∧
    StrongGeneratorWrapper.with_strong_ref w = w ∧
    WeakGeneratorWrapper.call w s alloc = WeakGeneratorWrapper.with_strong_ref w s alloc ∧
    StrongGeneratorWrapper.call w = StrongGeneratorWrapper.with_strong_ref w := by
  refine ⟨rfl, (Nat.ne_of_lt hfresh).symm, rfl, ?_, rfl, rfl, rfl, rfl⟩
  simp [StrongGeneratorWrapper.with_weak_ref, hgen]

/-- Witness for the amended C9 at the wrapper `w9` on a live heap. -/
theorem mode_conversion_allocation_witness :
    (w9.oid < 10 ∧ w9.generator ⟨[yields42], [false]⟩ = some 0) ∧
    ((WeakGeneratorWrapper.with_strong_ref w9 ⟨[yields42], [false]⟩ 10).1.oid = 10 ∧
     (WeakGeneratorWrapper.with_strong_ref w9 ⟨[yields42], [false]⟩ 10).1.oid ≠ w9.oid ∧
     (WeakGeneratorWrapper.with_strong_ref w9 ⟨[yields42], [false]⟩ 10).2 = 11 ∧
     StrongGeneratorWrapper.with_weak_ref w9 ⟨[yields42], [false]⟩ 10
       = .ok (⟨10, .weakRef 0, w9.catch_stopiteration, w9.debug⟩, 11) ∧
     WeakGeneratorWrapper.with_weak_ref w9 = w9 ∧
     StrongGeneratorWrapper.with_strong_ref w9 = w9 ∧
     WeakGeneratorWrapper.call w9 ⟨[yields42], [false]⟩ 10
       = WeakGeneratorWrapper.with_strong_ref w9 ⟨[yields42], [false]⟩ 10 ∧
     StrongGeneratorWrapper.call w9 = StrongGeneratorWrapper.with_strong_ref w9) :=
  ⟨⟨by decide, rfl⟩,
    mode_conversion_allocation w9 ⟨[yields42], [false]⟩ 10 0 (by decide) rfl⟩

/-- Claim C10: accessing the `send` or `throw` property on a `Weak`
wrapper while the coroutine is live resolves the weak reference once, at
access time, and captures the generator object itself in the returned
callable (`partial` holds it — the embedding of the strong reference the
callable keeps); every later invocation of that callable, in any later
heap state — in particular one where the weak reference has been cleared —
delivers into that very generator object. -/
theorem weak_send_resolves_once (w : Wrapper) (i g : Nat) (s : PyState)
    (hw : w.ref = .weakRef i) (hres : weakDeref s i = some g) :
    (GeneratorWrapperBase.send w s).generator = some g ∧
    (GeneratorWrapperBase.throw w s).generator = some g ∧
    (∀ (s2 : PyState) (v : Val),
      BoundMethod.callSend (GeneratorWrapperBase.send w s) v s2
        = GeneratorWrapperBase._send w.catch_stopiteration (some g) v s2) ∧
    (∀ (s2 : PyState) (e : Exc),
      BoundMethod.callThrow (GeneratorWrapperBase.throw w s) e s2
        = GeneratorWrapperBase._throw w.catch_stopiteration (some g) e s2) := by
  have hg : w.generator s = some g := by simp [Wrapper.generator, hw, hres]
  refine ⟨?_, ?_, ?_, ?_⟩ <;>
    simp [GeneratorWrapperBase.send, GeneratorWrapperBase.throw,
      BoundMethod.callSend, BoundMethod.callThrow, hg]

/-- Witness for C10: callable obtained on a live heap, still bound to
generator 0 (and invocable on a later heap whose weak cell is cleared). -/
theorem weak_send_resolves_once_witness :
    ((⟨4, .weakRef 0, true, false⟩ : Wrapper).ref = .weakRef 0 ∧
      weakDeref ⟨[yields42], [false]⟩ 0 = some 0) ∧
    ((GeneratorWrapperBase.send ⟨4, .weakRef 0, true, false⟩
        ⟨[yields42], [false]⟩).generator = some 0 ∧
     (GeneratorWrapperBase.throw ⟨4, .weakRef 0, true, false⟩
        ⟨[yields42], [false]⟩).generator = some 0 ∧
     (∀ (s2 : PyState) (v : Val),
       BoundMethod.callSend
           (GeneratorWrapperBase.send ⟨4, .weakRef 0, true, false⟩ ⟨[yields42], [false]⟩)
           v s2
         = GeneratorWrapperBase._send true (some 0) v s2) ∧
     (∀ (s2 : PyState) (e : Exc),
       BoundMethod.callThrow
           (GeneratorWrapperBase.throw ⟨4, .weakRef 0, true, false⟩ ⟨[yields42], [false]⟩)
           e s2
         = GeneratorWrapperBase._throw true (some 0) e s2)) :=
  ⟨⟨rfl, rfl⟩,
    weak_send_resolves_once ⟨4, .weakRef 0, true, false⟩ 0 0 ⟨[yields42], [false]⟩ rfl rfl⟩

end SendSelf
